import Mathlib

/-!
Verification of the go-csql core: the SQL statement segmenter
(`splitSQLStatements`), the per-instance executor
(`RunSQLOnInstanceWithVerbosity`), and the concurrent fan-out coordinator
(the goroutine/channel loop in `cmd/csql/main.go`).

Strings are modelled as `List Char`, matching the Go code's `[]rune`
conversion.  Database interaction is abstracted behind an oracle
(`DBBehavior`) so that the executor's control flow can be embedded as a
pure function.
-/

/-- Whitespace as recognised by Go's `unicode.IsSpace` (the Unicode
White_Space property), used by `strings.TrimSpace`. -/
def goIsSpace (c : Char) : Bool :=
  c == '\t' || c == '\n' || c == '\x0b' || c == '\x0c' || c == '\r' || c == ' ' ||
  c == '\u0085' || c == '\u00a0' || c == '\u1680' ||
  (0x2000 ≤ c.toNat && c.toNat ≤ 0x200a) ||
  c == '\u2028' || c == '\u2029' || c == '\u202f' || c == '\u205f' || c == '\u3000'

/-- Go's `strings.TrimSpace` on rune lists: drop leading and trailing
whitespace. -/
def goTrim (l : List Char) : List Char :=
  ((l.dropWhile goIsSpace).reverse.dropWhile goIsSpace).reverse

/-- `StatementInfo` from the db package: the SQL text and whether vertical
(`\G`) formatting is requested. -/
structure StatementInfo where
  SQL : List Char
  Vertical : Bool
  deriving DecidableEq, Repr

/-- The scanning state of `splitSQLStatements`: three quote flags and two
comment flags. -/
structure SplitState where
  inSingleQuote : Bool
  inDoubleQuote : Bool
  inBacktick : Bool
  inLineComment : Bool
  inBlockComment : Bool
  deriving DecidableEq, Repr

/-- The emission logic `splitSQLStatements` runs at a statement terminator
and at end of input (lines 226-238 and 247-259 of the db package): trim the
buffer, strip a trailing literal backslash-G and set the vertical flag when
present, and emit only a non-empty statement. -/
def finishStatement (buf : List Char) : Option StatementInfo :=
  let stmt := goTrim buf
  if stmt = [] then none
  else if ['\\', 'G'].isSuffixOf stmt then
    let sql := goTrim (stmt.take (stmt.length - 2))
    if sql = [] then none else some ⟨sql, true⟩
  else some ⟨stmt, false⟩

/-- The part of the scanner's loop body that needs no lookahead (lines
200-242): end a line comment at a newline, toggle quote flags outside
comments, then either split at an unquoted uncommented semicolon or append
the character to the buffer.  Returns the new state, buffer and emitted
statement list. -/
def splitStep1 (r : Char) (st : SplitState) (buf : List Char)
    (acc : List StatementInfo) : SplitState × List Char × List StatementInfo :=
  let st := if st.inLineComment && (r == '\n' || r == '\r') then
    { st with inLineComment := false } else st
  let st :=
    if !st.inLineComment && !st.inBlockComment then
      if r == '\'' then
        if !st.inDoubleQuote && !st.inBacktick then
          { st with inSingleQuote := !st.inSingleQuote } else st
      else if r == '"' then
        if !st.inSingleQuote && !st.inBacktick then
          { st with inDoubleQuote := !st.inDoubleQuote } else st
      else if r == '`' then
        if !st.inSingleQuote && !st.inDoubleQuote then
          { st with inBacktick := !st.inBacktick } else st
      else st
    else st
  if r == ';' && !st.inSingleQuote && !st.inDoubleQuote && !st.inBacktick &&
      !st.inLineComment && !st.inBlockComment then
    (st, [], acc ++ (finishStatement buf).toList)
  else
    (st, buf ++ [r], acc)

/-- The main scanning loop of `splitSQLStatements` (lines 161-243 plus the
final-statement handling at 246-260).  The four lookahead branches (escape
inside quotes, start of line comment, start of block comment, end of block
comment) are matched on two leading characters; when only one character
remains none of them can fire in the Go code (each requires `i+1 <
len(runes)`), so the last character always takes the no-lookahead path. -/
def splitLoop : List Char → SplitState → List Char → List StatementInfo →
    List StatementInfo
  | [], _, buf, acc =>
      if buf.isEmpty then acc else acc ++ (finishStatement buf).toList
  | [r], st, buf, acc =>
      let res := splitStep1 r st buf acc
      if res.2.1.isEmpty then res.2.2 else res.2.2 ++ (finishStatement res.2.1).toList
  | r :: c :: rest, st, buf, acc =>
      if (st.inSingleQuote || st.inDoubleQuote || st.inBacktick) && r == '\\' then
        splitLoop rest st (buf ++ [r, c]) acc
      else if !st.inSingleQuote && !st.inDoubleQuote && !st.inBacktick &&
          r == '-' && c == '-' then
        splitLoop (c :: rest) { st with inLineComment := true } (buf ++ [r]) acc
      else if !st.inSingleQuote && !st.inDoubleQuote && !st.inBacktick &&
          r == '/' && c == '*' then
        splitLoop (c :: rest) { st with inBlockComment := true } (buf ++ [r]) acc
      else if !st.inSingleQuote && !st.inDoubleQuote && !st.inBacktick &&
          st.inBlockComment && r == '*' && c == '/' then
        splitLoop rest { st with inBlockComment := false } (buf ++ [r, c]) acc
      else
        let res := splitStep1 r st buf acc
        splitLoop (c :: rest) res.1 res.2.1 res.2.2

/-- `splitSQLStatements` from the db package: split a raw SQL blob into
statements, honouring quoting, comments, escapes and the `\G` marker. -/
def splitSQLStatements (sqls : List Char) : List StatementInfo :=
  splitLoop sqls ⟨false, false, false, false, false⟩ [] []

/-- A database cell value as seen by the executor: either a byte slice from
the driver, SQL NULL, or any other driver value. -/
inductive Cell where
  | bytes : List Char → Cell
  | null : Cell
  | str : String → Cell
  | other : String → Cell
  deriving DecidableEq, Repr

/-- The row-copy step of the executor (lines 113-121 of the db package):
byte-valued cells are converted to strings for display, everything else is
kept as is. -/
def normalizeCell : Cell → Cell
  | .bytes b => .str (String.mk b)
  | v => v

/-- One `rows.Next`/`rows.Scan` iteration as supplied by the database:
either the scan fails with an error message or it yields the row's cells. -/
inductive RowFetch where
  | scanErr : String → RowFetch
  | row : List Cell → RowFetch
  deriving DecidableEq, Repr

/-- What the database returns for one successfully issued query: the result
of `rows.Columns`, the successive row fetches, and the final `rows.Err`. -/
structure QuerySuccess where
  colsResult : Except String (List String)
  fetches : List RowFetch
  iterErr : Option String

/-- The outcome of one `db.Query` call: either an immediate query error or
a row set. -/
inductive QueryOutcome where
  | queryErr : String → QueryOutcome
  | ok : QuerySuccess → QueryOutcome

/-- Oracle describing how the external database behaves for one endpoint
during one run: whether `sql.Open` fails, whether `db.Ping` fails, what the
n-th `db.Query` call (given the executed statement text) returns, and the
measured duration of that call.  The executor itself is a pure function of
this oracle. -/
structure DBBehavior where
  openErr : Option String
  pingErr : Option String
  query : Nat → List Char → QueryOutcome
  elapsed : Nat → Nat

/-- The error wrappers the executor can attach to a `QueryResult`, one per
`fmt.Errorf` site in `RunSQLOnInstanceWithVerbosity`. -/
inductive ExecError where
  | openFailed : String → ExecError
  | pingFailed : String → ExecError
  | queryError : String → ExecError
  | rowScanError : String → ExecError
  | columnsFailed : String → ExecError
  | rowsIterationError : String → ExecError
  deriving DecidableEq, Repr

/-- The two synthetic connection-failure shapes (failed `sql.Open` or failed
`db.Ping`). -/
def ExecError.isConnectionError : ExecError → Bool
  | .openFailed _ => true
  | .pingFailed _ => true
  | _ => false

/-- A statement-execution failure (`db.Query` returned an error). -/
def ExecError.isQueryError : ExecError → Bool
  | .queryError _ => true
  | _ => false

/-- `QueryResult` from the db package. -/
structure QueryResult where
  Instance : List Char
  Statement : List Char
  Rows : List (List Cell)
  Columns : List String
  Err : Option ExecError
  VerticalFormat : Bool
  Duration : Nat
  RowCount : Nat
  deriving DecidableEq, Repr

/-- The synthetic whole-instance result appended when connecting or pinging
fails (lines 53 and 61): only the instance and the error are set, all other
fields keep their zero values. -/
def connFailResult (dsn : List Char) (e : ExecError) : QueryResult :=
  { Instance := dsn, Statement := [], Rows := [], Columns := [], Err := some e,
    VerticalFormat := false, Duration := 0, RowCount := 0 }

/-- The row-collection loop (lines 96-123): scan each fetched row, skip rows
whose scan fails while remembering the first scan error, and copy the cells
of successful rows with byte-to-string normalisation.  Returns the collected
rows and the first scan error, if any. -/
def processFetches : List RowFetch → List (List Cell) × Option String
  | [] => ([], none)
  | .scanErr e :: rest => ((processFetches rest).1, some e)
  | .row cells :: rest =>
      let res := processFetches rest
      (cells.map normalizeCell :: res.1, res.2)

/-- The statement text reported in a `QueryResult` (lines 69-72): the
executed SQL with the `\G` marker re-appended when vertical format was
requested. -/
def originalStatementText (s : StatementInfo) : List Char :=
  if s.Vertical then s.SQL ++ ['\\', 'G'] else s.SQL

/-- The body of the executor's per-statement loop (lines 65-148) for the
`idx`-th statement: issue the query, and build the one `QueryResult` this
iteration appends — an error result if `db.Query` failed, otherwise a result
carrying the collected rows, the columns, and the first scan / column /
iteration error encountered. -/
def execStatement (beh : DBBehavior) (dsn : List Char) (idx : Nat)
    (stmtInfo : StatementInfo) : QueryResult :=
  let stmtToExecute := stmtInfo.SQL
  let originalStmt := originalStatementText stmtInfo
  let duration := beh.elapsed idx
  match beh.query idx stmtToExecute with
  | .queryErr e =>
      { Instance := dsn, Statement := originalStmt, Rows := [], Columns := [],
        Err := some (.queryError e), VerticalFormat := stmtInfo.Vertical,
        Duration := duration, RowCount := 0 }
  | .ok q =>
      match q.colsResult with
      | .error ce =>
          { Instance := dsn, Statement := originalStmt, Rows := [], Columns := [],
            Err := some (.columnsFailed ce), VerticalFormat := stmtInfo.Vertical,
            Duration := duration, RowCount := 0 }
      | .ok cols =>
          let fetched := processFetches q.fetches
          let err : Option ExecError := fetched.2.map ExecError.rowScanError
          let err : Option ExecError :=
            match q.iterErr, err with
            | some ie, none => some (.rowsIterationError ie)
            | _, e => e
          { Instance := dsn, Statement := originalStmt, Rows := fetched.1,
            Columns := cols, Err := err, VerticalFormat := stmtInfo.Vertical,
            Duration := duration, RowCount := fetched.1.length }

/-- The executor's statement loop: one `QueryResult` is appended per
statement, in statement order, whatever each statement's outcome is.  `idx`
numbers the successive `db.Query` calls so the oracle can answer each call
independently. -/
def runStatements (beh : DBBehavior) (dsn : List Char) :
    Nat → List StatementInfo → List QueryResult
  | _, [] => []
  | idx, s :: rest => execStatement beh dsn idx s :: runStatements beh dsn (idx + 1) rest

/-- `RunSQLOnInstanceWithVerbosity` from the db package: split the SQL blob,
trim the DSN, connect and ping (either failure yields a single synthetic
result), then execute every statement in order.  The `verbose` parameter is
accepted but, as in the source, never read. -/
def RunSQLOnInstanceWithVerbosity (beh : DBBehavior) (instanceDSN sqls : List Char)
    (verbose : Nat) : List QueryResult :=
  let statementList := splitSQLStatements sqls
  let instanceDSN := goTrim instanceDSN
  match beh.openErr with
  | some e => [connFailResult instanceDSN (.openFailed e)]
  | none =>
    match beh.pingErr with
    | some e => [connFailResult instanceDSN (.pingFailed e)]
    | none => runStatements beh instanceDSN 0 statementList

/-- `RunSQLOnInstance` from the db package: the verbosity-0 entry point used
by the coordinator. -/
def RunSQLOnInstance (beh : DBBehavior) (instanceDSN sqls : List Char) :
    List QueryResult :=
  RunSQLOnInstanceWithVerbosity beh instanceDSN sqls 0

/-- The per-endpoint result lists the concurrent coordinator's workers
produce (`main.go` lines 283-294: one goroutine per instance, each running
`RunSQLOnInstance` on the shared SQL blob).  Endpoint `i` is paired with its
own oracle `behs[i]`. -/
def coordinatorWorkers (behs : List DBBehavior) (dsns : List (List Char))
    (sqls : List Char) : List (List QueryResult) :=
  (dsns.zip behs).map fun p => RunSQLOnInstance p.2 p.1 sqls

/-- The possible receive orders of the coordinator's single results channel:
each worker sends its own results in order, and the main loop receives them
one at a time, so an output sequence is possible exactly when it is an
order-preserving interleaving of the per-worker lists. -/
inductive IsInterleaving : List (List QueryResult) → List QueryResult → Prop where
  | done : ∀ ws : List (List QueryResult), (∀ l ∈ ws, l = []) → IsInterleaving ws []
  | take : ∀ (ws : List (List QueryResult)) (i : Nat) (r : QueryResult)
      (rest : List QueryResult) (out : List QueryResult),
      ws[i]? = some (r :: rest) → IsInterleaving (ws.set i rest) out →
      IsInterleaving ws (r :: out)

/-- A possible printed output of the concurrent branch of `main` (lines
278-307): some interleaving of the workers' result sequences, as received
from the shared channel. -/
def concurrentOutput (behs : List DBBehavior) (dsns : List (List Char))
    (sqls : List Char) (out : List QueryResult) : Prop :=
  IsInterleaving (coordinatorWorkers behs dsns sqls) out

/-- An uncaught fault (a Go panic) inside one concurrent unit of work. -/
inductive WorkerFault where
  | panic : String → WorkerFault
  deriving DecidableEq, Repr

/-- The body of one concurrent unit (`main.go` lines 285-293): run the
executor and forward its results.  The body contains no `recover`, so an
uncaught internal fault passes through the unit boundary unconverted; the
fault possibility is made explicit by threading an `Except`. -/
def goroutineBody (run : Except WorkerFault (List QueryResult)) :
    Except WorkerFault (List QueryResult) :=
  run

/-- Whether the concurrent run delivered outcome lists at all, rather than
being terminated by a fault. -/
def runDelivered : Except WorkerFault (List (List QueryResult)) → Bool
  | .ok _ => true
  | .error _ => false

/-- The fault-level behaviour of the whole concurrent run: in Go, a panic
that is not recovered in its goroutine terminates the entire process, so if
any unit faults the run produces no outcome lists; otherwise every unit's
results are delivered. -/
def concurrentCollect :
    List (Except WorkerFault (List QueryResult)) →
    Except WorkerFault (List (List QueryResult))
  | [] => .ok []
  | u :: us =>
      match goroutineBody u, concurrentCollect us with
      | .error f, _ => .error f
      | .ok _, .error f => .error f
      | .ok rs, .ok rss => .ok (rs :: rss)

/-- Every statement the terminator logic emits has non-empty text. -/
theorem finishStatement_sql_ne_nil {buf : List Char} {u : StatementInfo}
    (h : finishStatement buf = some u) : u.SQL ≠ [] := by
  simp only [finishStatement] at h
  split_ifs at h with h1 h2 h3
  · obtain rfl := Option.some.inj h
    exact h3
  · obtain rfl := Option.some.inj h
    exact h1

/-- One no-lookahead step either leaves the emitted list unchanged or
appends the result of the terminator logic on the current buffer. -/
theorem splitStep1_acc_cases (r : Char) (st : SplitState) (buf : List Char)
    (acc : List StatementInfo) :
    (splitStep1 r st buf acc).2.2 = acc ∨
    (splitStep1 r st buf acc).2.2 = acc ++ (finishStatement buf).toList := by
  simp only [splitStep1]
  repeat' split
  all_goals simp
/-- Appending the terminator logic result preserves the non-empty-text
invariant of an emitted-statement list. -/
theorem mem_finish_aux {buf : List Char} {acc : List StatementInfo}
    (hacc : ∀ u ∈ acc, u.SQL ≠ []) :
    ∀ u ∈ acc ++ (finishStatement buf).toList, u.SQL ≠ [] := by
  intro u hu
  rcases List.mem_append.1 hu with h | h
  · exact hacc u h
  · exact finishStatement_sql_ne_nil (Option.mem_toList.1 h)

/-- Invariant of the scanning loop: if every already-emitted statement has
non-empty text, so does every statement in the loop's final output. -/
theorem splitLoop_sql_ne_nil :
    ∀ (l : List Char) (st : SplitState) (buf : List Char)
      (acc : List StatementInfo), (∀ u ∈ acc, u.SQL ≠ []) →
      ∀ u ∈ splitLoop l st buf acc, u.SQL ≠ [] := by
  intro l st buf acc
  induction l, st, buf, acc using splitLoop.induct with
  | case1 st buf acc he =>
      intro hacc u hu
      simp only [splitLoop] at hu
      rw [if_pos he] at hu
      exact hacc u hu
  | case2 st buf acc he =>
      intro hacc u hu
      simp only [splitLoop] at hu
      rw [if_neg he] at hu
      exact mem_finish_aux hacc u hu
  | case3 r st buf acc res hres =>
      intro hacc u hu
      simp only [splitLoop] at hu
      rw [if_pos hres] at hu
      rcases splitStep1_acc_cases r st buf acc with h | h <;> rw [h] at hu
      · exact hacc u hu
      · exact mem_finish_aux hacc u hu
  | case4 r st buf acc res hres =>
      intro hacc u hu
      simp only [splitLoop] at hu
      rw [if_neg hres] at hu
      rcases List.mem_append.1 hu with h' | h'
      · rcases splitStep1_acc_cases r st buf acc with h | h <;> rw [h] at h'
        · exact hacc u h'
        · exact mem_finish_aux hacc u h'
      · exact finishStatement_sql_ne_nil (Option.mem_toList.1 h')
  | case5 r c rest st buf acc h1 ih =>
      intro hacc u hu
      simp only [splitLoop] at hu
      rw [if_pos h1] at hu
      exact ih hacc u hu
  | case6 r c rest st buf acc h1 h2 ih =>
      intro hacc u hu
      simp only [splitLoop] at hu
      rw [if_neg h1, if_pos h2] at hu
      exact ih hacc u hu
  | case7 r c rest st buf acc h1 h2 h3 ih =>
      intro hacc u hu
      simp only [splitLoop] at hu
      rw [if_neg h1, if_neg h2, if_pos h3] at hu
      exact ih hacc u hu
  | case8 r c rest st buf acc h1 h2 h3 h4 ih =>
      intro hacc u hu
      simp only [splitLoop] at hu
      rw [if_neg h1, if_neg h2, if_neg h3, if_pos h4] at hu
      exact ih hacc u hu
  | case9 r c rest st buf acc h1 h2 h3 h4 res ih =>
      intro hacc u hu
      simp only [splitLoop] at hu
      rw [if_neg h1, if_neg h2, if_neg h3, if_neg h4] at hu
      rcases splitStep1_acc_cases r st buf acc with h | h
      · exact ih (by rw [h]; exact hacc) u hu
      · exact ih (by rw [h]; exact mem_finish_aux hacc) u hu

/-- The statement loop yields exactly one result per statement. -/
theorem runStatements_length (beh : DBBehavior) (dsn : List Char) :
    ∀ (idx : Nat) (l : List StatementInfo),
    (runStatements beh dsn idx l).length = l.length := by
  intro idx l
  induction l generalizing idx with
  | nil => rfl
  | cons s rest ih => simp [runStatements, ih]

/-- The i-th result of the statement loop is the execution of the i-th
statement, at query-call number `idx + i`. -/
theorem runStatements_getElem (beh : DBBehavior) (dsn : List Char) :
    ∀ (l : List StatementInfo) (idx i : Nat),
    (runStatements beh dsn idx l)[i]? =
      (l[i]?).map fun s => execStatement beh dsn (idx + i) s := by
  intro l
  induction l with
  | nil => intro idx i; simp [runStatements]
  | cons s rest ih =>
      intro idx i
      cases i with
      | zero => simp [runStatements]
      | succ n =>
          simp only [runStatements, List.getElem?_cons_succ]
          rw [ih (idx + 1) n, show idx + 1 + n = idx + (n + 1) from by omega]

/-- Every result of the statement loop is the execution of some statement. -/
theorem runStatements_mem (beh : DBBehavior) (dsn : List Char) :
    ∀ (idx : Nat) (l : List StatementInfo) (r : QueryResult),
    r ∈ runStatements beh dsn idx l → ∃ i s, r = execStatement beh dsn i s := by
  intro idx l
  induction l generalizing idx with
  | nil => intro r hr; simp [runStatements] at hr
  | cons s rest ih =>
      intro r hr
      rcases List.mem_cons.1 hr with h | h
      · exact ⟨idx, s, h⟩
      · exact ih (idx + 1) r h

/-- Both reported fields that identify the statement are taken from the
statement unit: the display text (with the re-appended marker) and the
vertical flag. -/
theorem execStatement_statement (beh : DBBehavior) (dsn : List Char) (idx : Nat)
    (s : StatementInfo) :
    (execStatement beh dsn idx s).Statement = originalStatementText s ∧
    (execStatement beh dsn idx s).VerticalFormat = s.Vertical := by
  simp only [execStatement]
  cases h : beh.query idx s.SQL with
  | queryErr e => exact ⟨rfl, rfl⟩
  | ok q =>
      rcases q with ⟨cr, fs, ie⟩
      cases cr <;> exact ⟨rfl, rfl⟩

/-- A failed `db.Query` call produces a result carrying exactly that error
and no rows. -/
theorem execStatement_queryErr (beh : DBBehavior) (dsn : List Char) (idx : Nat)
    (s : StatementInfo) (e : String) (h : beh.query idx s.SQL = .queryErr e) :
    (execStatement beh dsn idx s).Err = some (.queryError e) ∧
    (execStatement beh dsn idx s).Rows = [] := by
  simp only [execStatement]
  rw [h]
  exact ⟨rfl, rfl⟩

/-- Every per-statement result counts exactly its own rows. -/
theorem execStatement_rowCount (beh : DBBehavior) (dsn : List Char) (idx : Nat)
    (s : StatementInfo) :
    (execStatement beh dsn idx s).RowCount =
      (execStatement beh dsn idx s).Rows.length := by
  simp only [execStatement]
  cases h : beh.query idx s.SQL with
  | queryErr e => rfl
  | ok q =>
      rcases q with ⟨cr, fs, ie⟩
      cases cr <;> rfl

/-- A per-statement result whose error is connection- or query-shaped has no
rows (in fact only query errors can occur here). -/
theorem execStatement_err_rows (beh : DBBehavior) (dsn : List Char) (idx : Nat)
    (s : StatementInfo) :
    ∀ e, (execStatement beh dsn idx s).Err = some e →
      (e.isConnectionError || e.isQueryError) = true →
      (execStatement beh dsn idx s).Rows = [] := by
  simp only [execStatement]
  cases h : beh.query idx s.SQL with
  | queryErr e0 => intro e he hk; rfl
  | ok q =>
      rcases q with ⟨cr, fs, ie⟩
      cases cr with
      | error ce => intro e he hk; rfl
      | ok cols =>
          intro e he hk
          exfalso
          revert he
          cases ie <;> cases hfe : (processFetches fs).2 <;> intro he <;> simp [hfe] at he <;>
            (subst he; simp [ExecError.isConnectionError, ExecError.isQueryError] at hk)

/-- With a healthy connection the executor is exactly the statement loop on
the split statements, starting at query call 0. -/
theorem runSQL_connected (beh : DBBehavior) (dsn sqls : List Char) (v : Nat)
    (ho : beh.openErr = none) (hp : beh.pingErr = none) :
    RunSQLOnInstanceWithVerbosity beh dsn sqls v =
      runStatements beh (goTrim dsn) 0 (splitSQLStatements sqls) := by
  unfold RunSQLOnInstanceWithVerbosity
  rw [ho, hp]

/-- Any sequence the concurrent coordinator can print contains exactly the
outcomes of all workers (it is a permutation of their concatenation). -/
theorem interleaving_perm_flatten {ws : List (List QueryResult)}
    {out : List QueryResult} (h : IsInterleaving ws out) :
    out.Perm ws.flatten := by
  induction h with
  | done ws h => rw [List.flatten_eq_nil_iff.2 h]
  | take ws i r rest out hget hsub ih =>
      have hi : i < ws.length := by
        by_contra hlt
        rw [List.getElem?_eq_none (Nat.le_of_not_lt hlt)] at hget
        exact Option.noConfusion hget
      have hwsi : ws[i] = r :: rest := by
        rw [List.getElem?_eq_getElem hi] at hget
        exact Option.some.inj hget
      have hset : ws.set i rest = ws.take i ++ rest :: ws.drop (i + 1) :=
        List.set_eq_take_cons_drop rest hi
      have h1 : (r :: out).Perm
          (r :: ((ws.take i).flatten ++ (rest ++ (ws.drop (i + 1)).flatten))) := by
        refine List.Perm.cons r (ih.trans ?_)
        rw [hset]
        simp [List.flatten_append, List.append_assoc]
      have h2 : ws.flatten =
          (ws.take i).flatten ++ r :: (rest ++ (ws.drop (i + 1)).flatten) := by
        conv_lhs => rw [← List.take_append_drop i ws, List.drop_eq_getElem_cons hi, hwsi]
        simp [List.flatten_append, List.append_assoc]
      rw [h2]
      exact h1.trans List.perm_middle.symm

/-- Each worker's full outcome sequence appears, in order, inside any
sequence the concurrent coordinator can print. -/
theorem interleaving_sublist {ws : List (List QueryResult)}
    {out : List QueryResult} (h : IsInterleaving ws out) :
    ∀ (i : Nat) (hi : i < ws.length), List.Sublist (ws.get ⟨i, hi⟩) out := by
  induction h with
  | done ws h =>
      intro i hi
      rw [List.get_eq_getElem, h ws[i] (List.getElem_mem hi)]
  | take ws j r rest out hget hsub ih =>
      intro i hi
      have hj : j < ws.length := by
        by_contra hlt
        rw [List.getElem?_eq_none (Nat.le_of_not_lt hlt)] at hget
        exact Option.noConfusion hget
      rcases eq_or_ne i j with rfl | hij
      · have hwsi : ws[i] = r :: rest := by
          rw [List.getElem?_eq_getElem hi] at hget
          exact Option.some.inj hget
        rw [List.get_eq_getElem, hwsi]
        have hi' : i < (ws.set i rest).length := by simpa using hi
        have hrest := ih i hi'
        rw [List.get_eq_getElem, List.getElem_set_self] at hrest
        exact List.Sublist.cons₂ r hrest
      · have hi' : i < (ws.set j rest).length := by simpa using hi
        have hx := ih i hi'
        rw [List.get_eq_getElem,
          List.getElem_set_ne (fun hh => hij hh.symm)] at hx
        rw [List.get_eq_getElem]
        exact List.Sublist.cons r hx

/-- The input of the segmentation scenario of claim C3: the text
`SELECT 1; SELECT 'a;b'; -- c;d`, a newline, then `SELECT 2\G`. -/
def c3Input : List Char :=
  "SELECT 1; SELECT ".toList ++ '\'' :: "a;b".toList ++ '\'' ::
    "; -- c;d\nSELECT 2\\G".toList

/-- The three units claim C3 predicts for `c3Input`. -/
def c3Claimed : List StatementInfo :=
  [⟨"SELECT 1".toList, false⟩,
   ⟨"SELECT ".toList ++ '\'' :: "a;b".toList ++ ['\''], false⟩,
   ⟨"SELECT 2".toList, true⟩]

/-- The three units the segmenter actually produces for `c3Input`: line
comments are retained verbatim in the following statement's text, so the
third unit keeps the `-- c;d` prefix. -/
def c3Actual : List StatementInfo :=
  [⟨"SELECT 1".toList, false⟩,
   ⟨"SELECT ".toList ++ '\'' :: "a;b".toList ++ ['\''], false⟩,
   ⟨"-- c;d\nSELECT 2".toList, true⟩]

/-- Claim C3, as stated, is false: the segmenter does not output
`SELECT 2` as the third unit's text on the scenario input. -/
theorem c3_counterexample : splitSQLStatements c3Input ≠ c3Claimed := by decide

/-- Claim C3 (amended): segmenting the scenario input yields exactly three
units, `SELECT 1` (vertical false), `SELECT 'a;b'` (vertical false), and —
because comment text is retained verbatim in the accumulated buffer — the
third unit's text is the line comment `-- c;d`, the newline, and `SELECT 2`,
with vertical true and the `\G` marker stripped. -/
theorem c3_segmentation_scenario : splitSQLStatements c3Input = c3Actual := by
  decide

/-- Claim C6: while any quote or comment state is active, a `;` never
terminates the current statement — it is simply appended to the buffer with
no state change and no emission; with no quote or comment state active, a
`;` always terminates the statement: the buffer is flushed through the
emission logic and reset. -/
theorem c6_semicolon_splitting (st : SplitState) (buf : List Char)
    (acc : List StatementInfo) (rest : List Char) :
    ((st.inSingleQuote || st.inDoubleQuote || st.inBacktick || st.inLineComment ||
        st.inBlockComment) = true →
      splitLoop (';' :: rest) st buf acc = splitLoop rest st (buf ++ [';']) acc) ∧
    (st.inSingleQuote = false → st.inDoubleQuote = false → st.inBacktick = false →
      st.inLineComment = false → st.inBlockComment = false →
      splitLoop (';' :: rest) st buf acc =
        splitLoop rest st [] (acc ++ (finishStatement buf).toList)) := by
  rcases st with ⟨q1, q2, q3, k1, k2⟩
  constructor
  · intro h
    cases rest <;> cases q1 <;> cases q2 <;> cases q3 <;> cases k1 <;> cases k2 <;>
      first
        | rfl
        | simp at h
  · intro h1 h2 h3 h4 h5
    cases rest <;> cases q1 <;> cases q2 <;> cases q3 <;> cases k1 <;> cases k2 <;>
      first
        | rfl
        | simp at h1 h2 h3 h4 h5

/-- Witness for C6 at concrete inputs: inside a single-quoted string the
semicolon is buffered, outside it flushes the statement. -/
theorem c6_semicolon_splitting_witness :
    splitLoop (';' :: "x".toList) ⟨true, false, false, false, false⟩ "a".toList [] =
      splitLoop "x".toList ⟨true, false, false, false, false⟩
        ("a".toList ++ [';']) [] ∧
    splitLoop (';' :: "x".toList) ⟨false, false, false, false, false⟩ "a".toList [] =
      splitLoop "x".toList ⟨false, false, false, false, false⟩ []
        ([] ++ (finishStatement "a".toList).toList) :=
  ⟨(c6_semicolon_splitting ⟨true, false, false, false, false⟩ "a".toList [] "x".toList).1
      (by decide),
   (c6_semicolon_splitting ⟨false, false, false, false, false⟩ "a".toList [] "x".toList).2
      rfl rfl rfl rfl rfl⟩

/-- Claim C7: while any quote state is active, a backslash together with the
immediately following character is consumed literally into the buffer — the
scanning state is unchanged, so an escaped quote cannot end the string and a
backslash never toggles quoting. -/
theorem c7_escape_handling (st : SplitState) (c : Char) (rest buf : List Char)
    (acc : List StatementInfo)
    (h : (st.inSingleQuote || st.inDoubleQuote || st.inBacktick) = true) :
    splitLoop ('\\' :: c :: rest) st buf acc =
      splitLoop rest st (buf ++ ['\\', c]) acc := by
  rcases st with ⟨q1, q2, q3, k1, k2⟩
  cases q1 <;> cases q2 <;> cases q3 <;>
    first
      | rfl
      | simp at h

/-- Witness for C7 at a concrete input: an escaped single quote inside a
single-quoted string is consumed without closing the string. -/
theorem c7_escape_handling_witness :
    splitLoop ('\\' :: '\'' :: "x".toList) ⟨true, false, false, false, false⟩
        "a".toList [] =
      splitLoop "x".toList ⟨true, false, false, false, false⟩
        ("a".toList ++ ['\\', '\'']) [] :=
  c7_escape_handling ⟨true, false, false, false, false⟩ '\'' "x".toList
    "a".toList [] (by decide)

/-- Claim C8: when the trimmed buffer ends with the `\G` marker, the
emission logic emits a unit exactly when the text left after stripping the
marker (and the whitespace before it) is non-empty, and any emitted unit has
vertical set and that stripped text. -/
theorem c8_vertical_marker (buf : List Char)
    (h : ['\\', 'G'].isSuffixOf (goTrim buf) = true) :
    ((finishStatement buf).isSome = true ↔
      goTrim ((goTrim buf).take ((goTrim buf).length - 2)) ≠ []) ∧
    ∀ u, finishStatement buf = some u → u.Vertical = true ∧
      u.SQL = goTrim ((goTrim buf).take ((goTrim buf).length - 2)) := by
  have hne : goTrim buf ≠ [] := by
    intro h0
    rw [h0] at h
    exact absurd h (by decide)
  simp only [finishStatement]
  rw [if_neg hne, if_pos h]
  by_cases hsql : goTrim ((goTrim buf).take ((goTrim buf).length - 2)) = []
  · rw [if_pos hsql]
    exact ⟨by simp [hsql], fun u hu => Option.noConfusion hu⟩
  · rw [if_neg hsql]
    refine ⟨by simp [hsql], fun u hu => ?_⟩
    obtain rfl := Option.some.inj hu
    exact ⟨rfl, rfl⟩

/-- Witness for C8 at a concrete buffer with whitespace around the marker. -/
theorem c8_vertical_marker_witness :
    (finishStatement (" SELECT 2 \\G ".toList)).isSome = true :=
  (c8_vertical_marker (" SELECT 2 \\G ".toList) (by decide)).1.mpr (by decide)

/-- Claim C9: the segmenter is total — it is a function defined on every
input — and every unit it emits has non-empty text (empty or whitespace-only
segments are dropped); an unterminated quote at end of input is accepted,
the remainder becoming the final statement, as the concrete unterminated
input `SELECT 'abc` shows. -/
theorem c9_totality_nonempty (sqls : List Char) :
    (∀ u ∈ splitSQLStatements sqls, u.SQL ≠ []) ∧
    splitSQLStatements ("SELECT ".toList ++ '\'' :: "abc".toList) =
      [⟨"SELECT ".toList ++ '\'' :: "abc".toList, false⟩] := by
  refine ⟨splitLoop_sql_ne_nil sqls _ [] [] ?_, by decide⟩
  intro u hu
  exact absurd hu (List.not_mem_nil u)

/-- Witness for C9 at a concrete input with doubled and trailing
terminators. -/
theorem c9_totality_nonempty_witness :
    StatementInfo.SQL ⟨"SELECT 1".toList, false⟩ ≠ [] :=
  (c9_totality_nonempty "SELECT 1;; ;".toList).1 ⟨"SELECT 1".toList, false⟩
    (by decide)

/-- Claim C4: when opening the connection or the ping fails, the executor
returns exactly one outcome — a synthetic connection-error outcome with no
statement text and no rows — whatever the statement sequence is; it never
returns one error outcome per statement. -/
theorem c4_connection_failure (beh : DBBehavior) (dsn sqls : List Char) (v : Nat)
    (h : beh.openErr.isSome = true ∨ beh.pingErr.isSome = true) :
    ∃ r, RunSQLOnInstanceWithVerbosity beh dsn sqls v = [r] ∧
      r.Statement = [] ∧ r.Rows = [] ∧ r.RowCount = 0 ∧
      ∃ e, r.Err = some e ∧ e.isConnectionError = true := by
  simp only [RunSQLOnInstanceWithVerbosity]
  cases ho : beh.openErr with
  | some e =>
      exact ⟨connFailResult (goTrim dsn) (.openFailed e), rfl, rfl, rfl, rfl,
        .openFailed e, rfl, rfl⟩
  | none =>
      cases hp : beh.pingErr with
      | some e =>
          exact ⟨connFailResult (goTrim dsn) (.pingFailed e), rfl, rfl, rfl, rfl,
            .pingFailed e, rfl, rfl⟩
      | none =>
          exfalso
          rcases h with h | h
          · rw [ho] at h
            exact absurd h (by simp)
          · rw [hp] at h
            exact absurd h (by simp)

/-- The oracle of the C4 witness: `sql.Open` fails. -/
def c4Beh : DBBehavior :=
  { openErr := some "connection refused", pingErr := none,
    query := fun _ _ => .queryErr "unused", elapsed := fun _ => 0 }

/-- Witness for C4: a two-statement input against an unreachable endpoint
yields the single synthetic outcome. -/
theorem c4_connection_failure_witness :
    ∃ r, RunSQLOnInstanceWithVerbosity c4Beh "u@tcp(h:3306)/d".toList
        "SELECT 1; SELECT 2".toList 0 = [r] ∧
      r.Statement = [] ∧ r.Rows = [] ∧ r.RowCount = 0 ∧
      ∃ e, r.Err = some e ∧ e.isConnectionError = true :=
  c4_connection_failure c4Beh "u@tcp(h:3306)/d".toList
    "SELECT 1; SELECT 2".toList 0 (Or.inl (by decide))

/-- Claim C5: on a connected (successfully pinged) endpoint the executor
produces exactly one outcome per statement unit, in statement order; the
i-th outcome is the execution of the i-th unit — so a failing statement
never prevents later sibling statements from producing their own outcomes —
it reports the original statement text (marker re-appended) and vertical
flag, and when the i-th query call fails its outcome carries exactly that
error and no rows. -/
theorem c5_per_statement_outcomes (beh : DBBehavior) (dsn sqls : List Char)
    (v : Nat) (ho : beh.openErr = none) (hp : beh.pingErr = none) :
    (RunSQLOnInstanceWithVerbosity beh dsn sqls v).length =
      (splitSQLStatements sqls).length ∧
    ∀ i s, (splitSQLStatements sqls)[i]? = some s →
      (RunSQLOnInstanceWithVerbosity beh dsn sqls v)[i]? =
        some (execStatement beh (goTrim dsn) i s) ∧
      (execStatement beh (goTrim dsn) i s).Statement = originalStatementText s ∧
      (execStatement beh (goTrim dsn) i s).VerticalFormat = s.Vertical ∧
      ∀ e, beh.query i s.SQL = .queryErr e →
        (execStatement beh (goTrim dsn) i s).Err = some (.queryError e) ∧
        (execStatement beh (goTrim dsn) i s).Rows = [] := by
  rw [runSQL_connected beh dsn sqls v ho hp]
  refine ⟨runStatements_length beh (goTrim dsn) 0 _, fun i s hs => ?_⟩
  refine ⟨?_, (execStatement_statement beh (goTrim dsn) i s).1,
    (execStatement_statement beh (goTrim dsn) i s).2,
    fun e he => execStatement_queryErr beh (goTrim dsn) i s e he⟩
  rw [runStatements_getElem beh (goTrim dsn) _ 0 i, hs]
  simp

/-- The oracle of the C5 witness: the first query call fails, the second
succeeds with one row. -/
def c5Beh : DBBehavior :=
  { openErr := none, pingErr := none,
    query := fun i _ =>
      if i = 0 then .queryErr "syntax error"
      else .ok ⟨.ok ["one"], [.row [.str "1"]], none⟩,
    elapsed := fun _ => 0 }

/-- Witness for C5: with the first of two statements failing, the first
outcome exists and carries exactly the query error. -/
theorem c5_per_statement_outcomes_witness :
    (RunSQLOnInstanceWithVerbosity c5Beh "d".toList
        "SELECT 0; SELECT 1".toList 0)[0]? =
      some (execStatement c5Beh (goTrim "d".toList) 0 ⟨"SELECT 0".toList, false⟩) ∧
    (execStatement c5Beh (goTrim "d".toList) 0 ⟨"SELECT 0".toList, false⟩).Err =
      some (.queryError "syntax error") :=
  ⟨((c5_per_statement_outcomes c5Beh "d".toList "SELECT 0; SELECT 1".toList 0
      rfl rfl).2 0 ⟨"SELECT 0".toList, false⟩ (by decide)).1,
   (((c5_per_statement_outcomes c5Beh "d".toList "SELECT 0; SELECT 1".toList 0
      rfl rfl).2 0 ⟨"SELECT 0".toList, false⟩ (by decide)).2.2.2
      "syntax error" rfl).1⟩

/-- Claim C10: every outcome the executor produces counts exactly the rows
it carries (`RowCount` equals the length of `Rows`), and outcomes whose
error is connection-shaped or query-shaped carry no rows at all. -/
theorem c10_rowcount (beh : DBBehavior) (dsn sqls : List Char) (v : Nat) :
    ∀ r ∈ RunSQLOnInstanceWithVerbosity beh dsn sqls v,
      r.RowCount = r.Rows.length ∧
      ∀ e, r.Err = some e → (e.isConnectionError || e.isQueryError) = true →
        r.Rows = [] := by
  intro r hr
  simp only [RunSQLOnInstanceWithVerbosity] at hr
  cases ho : beh.openErr with
  | some e =>
      rw [ho] at hr
      simp at hr
      subst hr
      exact ⟨rfl, fun e' he hk => rfl⟩
  | none =>
      rw [ho] at hr
      cases hp : beh.pingErr with
      | some e =>
          rw [hp] at hr
          simp at hr
          subst hr
          exact ⟨rfl, fun e' he hk => rfl⟩
      | none =>
          rw [hp] at hr
          obtain ⟨i, s, rfl⟩ :=
            runStatements_mem beh (goTrim dsn) 0 (splitSQLStatements sqls) r hr
          exact ⟨execStatement_rowCount beh (goTrim dsn) i s,
            execStatement_err_rows beh (goTrim dsn) i s⟩

/-- The oracle of the C10 witness: one successful query returning two rows. -/
def c10Beh : DBBehavior :=
  { openErr := none, pingErr := none,
    query := fun _ _ => .ok ⟨.ok ["c"], [.row [.str "a"], .row [.str "b"]], none⟩,
    elapsed := fun _ => 0 }

/-- The single outcome of the C10 witness run. -/
def c10Res : QueryResult :=
  execStatement c10Beh (goTrim "d".toList) 0 ⟨"SELECT 1".toList, false⟩

/-- Witness for C10: the two-row outcome counts its own rows. -/
theorem c10_rowcount_witness : c10Res.RowCount = c10Res.Rows.length :=
  (c10_rowcount c10Beh "d".toList "SELECT 1".toList 0 c10Res (by decide)).1

/-- When no unit faults, the collected run delivers exactly every unit's
result list. -/
theorem concurrentCollect_all_ok (rss : List (List QueryResult)) :
    concurrentCollect (rss.map Except.ok) = Except.ok rss := by
  induction rss with
  | nil => rfl
  | cons rs rest ih => simp [concurrentCollect, goroutineBody, ih]

/-- When any unit faults, the run delivers nothing: the fault passes the
unit boundary unconverted and terminates the whole run. -/
theorem concurrentCollect_fault (l₁ l₂ : List (Except WorkerFault (List QueryResult)))
    (f : WorkerFault) :
    runDelivered (concurrentCollect (l₁ ++ Except.error f :: l₂)) = false := by
  induction l₁ with
  | nil => rfl
  | cons u rest ih =>
      simp only [List.cons_append, concurrentCollect, goroutineBody]
      cases u with
      | error g => rfl
      | ok rs =>
          cases hc : concurrentCollect (rest ++ Except.error f :: l₂) with
          | error g => rfl
          | ok rss =>
              rw [hc] at ih
              simp [runDelivered] at ih

/-- The oracle of the C2 counterexample's healthy sibling endpoint. -/
def c2Beh : DBBehavior :=
  { openErr := none, pingErr := none,
    query := fun _ _ => .ok ⟨.ok ["1"], [.row [.str "1"]], none⟩,
    elapsed := fun _ => 0 }

/-- The healthy sibling's results in the C2 counterexample. -/
def c2SiblingResults : List QueryResult :=
  RunSQLOnInstance c2Beh "a@tcp(h:3306)/d".toList "SELECT 1".toList

/-- Claim C2, as stated, is false: an uncaught fault in one concurrent unit
is not converted into a ConnectionError-shaped outcome — there is no
recovery at the unit boundary, so the fault terminates the run and even the
healthy sibling's outcomes are not delivered. -/
theorem c2_counterexample :
    runDelivered (concurrentCollect [Except.ok c2SiblingResults,
      Except.error (WorkerFault.panic "runtime error")]) = false := rfl

/-- Claim C2 (amended): the unit boundary performs no fault conversion.
When no unit faults, the coordinator collects exactly every unit's executor
results; when any unit faults, the uncaught fault propagates through the
unit boundary and the run delivers no outcomes at all — the fault is never
turned into a synthetic ConnectionError-shaped outcome for that endpoint. -/
theorem c2_fault_propagation :
    (∀ rss : List (List QueryResult),
      concurrentCollect (rss.map Except.ok) = Except.ok rss) ∧
    ∀ (l₁ l₂ : List (Except WorkerFault (List QueryResult))) (f : WorkerFault),
      runDelivered (concurrentCollect (l₁ ++ Except.error f :: l₂)) = false :=
  ⟨concurrentCollect_all_ok, concurrentCollect_fault⟩

/-- The oracle of endpoint A in the C1 counterexample: unreachable. -/
def c1BehA : DBBehavior :=
  { openErr := some "down A", pingErr := none,
    query := fun _ _ => .queryErr "x", elapsed := fun _ => 0 }

/-- The oracle of endpoint B in the C1 counterexample: unreachable. -/
def c1BehB : DBBehavior :=
  { openErr := some "down B", pingErr := none,
    query := fun _ _ => .queryErr "x", elapsed := fun _ => 0 }

/-- Endpoint A's DSN in the C1 counterexample. -/
def c1DsnA : List Char := "a@tcp(hostA:3306)/d".toList

/-- Endpoint B's DSN in the C1 counterexample. -/
def c1DsnB : List Char := "b@tcp(hostB:3306)/d".toList

/-- The statement blob of the C1 counterexample. -/
def c1Sqls : List Char := "SELECT 1".toList

/-- An output the concurrent coordinator can print when endpoint B's worker
wins the race: B's outcome before A's. -/
def c1OutBad : List QueryResult :=
  [connFailResult (goTrim c1DsnB) (.openFailed "down B"),
   connFailResult (goTrim c1DsnA) (.openFailed "down A")]

/-- Claim C1, as stated, is false: with two endpoints, the coordinator can
emit endpoint B's outcome before endpoint A's — a possible output that
differs from the buffered, endpoint-input-order output the claim demands. -/
theorem c1_counterexample :
    concurrentOutput [c1BehA, c1BehB] [c1DsnA, c1DsnB] c1Sqls c1OutBad ∧
    c1OutBad ≠ (coordinatorWorkers [c1BehA, c1BehB] [c1DsnA, c1DsnB] c1Sqls).flatten := by
  constructor
  · refine IsInterleaving.take _ 1 _ [] _ rfl ?_
    refine IsInterleaving.take _ 0 _ [] _ rfl ?_
    exact IsInterleaving.done _ (by decide)
  · decide

/-- Claim C1 (amended): the concurrent coordinator does not buffer or
reorder — it emits outcomes in channel-arrival order, which can be any
order-preserving interleaving of the per-endpoint outcome sequences.  What
does hold: every possible output contains exactly all workers' outcomes (it
is a permutation of their concatenation, so the coordinator still waits for
every unit before closing the output), and each endpoint's own outcome
sequence appears in it in statement order. -/
theorem c1_concurrent_emission (behs : List DBBehavior) (dsns : List (List Char))
    (sqls : List Char) (out : List QueryResult)
    (h : concurrentOutput behs dsns sqls out) :
    out.Perm (coordinatorWorkers behs dsns sqls).flatten ∧
    ∀ (i : Nat) (hi : i < (coordinatorWorkers behs dsns sqls).length),
      List.Sublist ((coordinatorWorkers behs dsns sqls).get ⟨i, hi⟩) out :=
  ⟨interleaving_perm_flatten h, interleaving_sublist h⟩

/-- Witness for C1 (amended) at a concrete one-endpoint run. -/
theorem c1_concurrent_emission_witness :
    List.Perm [connFailResult (goTrim c1DsnA) (.openFailed "down A")]
      (coordinatorWorkers [c1BehA] [c1DsnA] c1Sqls).flatten :=
  (c1_concurrent_emission [c1BehA] [c1DsnA] c1Sqls
    [connFailResult (goTrim c1DsnA) (.openFailed "down A")]
    (IsInterleaving.take _ 0 _ [] _ rfl (IsInterleaving.done _ (by decide)))).1
